import Mathlib

/-!
Verification of the gesture classifier and scene binding of
`src/avatarrenderer.ts` (class `AvatarRenderer`).

The numeric model uses exact rationals (ℚ) for the 3-component vectors of
Babylon's `Vector3`.  The source normalizes each limb vector and then takes
dot products, so each tested quantity is the cosine of the angle between two
(unnormalized) difference vectors:

  cos(u, v) = (u ⬝ v) / (√(u ⬝ u) · √(v ⬝ v)),

with Babylon's convention that `normalize` of a zero-length vector returns the
zero vector, so the cosine involving a zero vector is 0.  Square roots of
rationals are irrational in general, so the embedding represents each
threshold comparison `cos(u, v) > t` / `cos(u, v) < t` (for thresholds
t = 0.8, 0.7 > 0) by its exact algebraic equivalent over ℚ obtained by
squaring (`cosGtB`, `cosLtB` below); the bridge lemmas `cosGtB_iff_real` and
`cosLtB_iff_real` prove these Boolean tests equivalent to the genuine
real-valued cosine comparisons whenever both vectors are nonzero, and the
zero-vector cases are handled exactly per the zero-cosine convention.
-/

/-- A 3-component vector, modelling Babylon's `Vector3` with exact rational
coordinates. -/
structure Vec3 where
  x : ℚ
  y : ℚ
  z : ℚ
  deriving DecidableEq, Repr

namespace Vec3

/-- Componentwise subtraction, modelling `Vector3.subtract`. -/
def sub (a b : Vec3) : Vec3 := ⟨a.x - b.x, a.y - b.y, a.z - b.z⟩

/-- Dot product, modelling `Vector3.Dot`. -/
def dot (a b : Vec3) : ℚ := a.x * b.x + a.y * b.y + a.z * b.z

/-- Squared Euclidean length (`Vector3.lengthSquared`). -/
def normSq (a : Vec3) : ℚ := a.dot a

/-- Linear interpolation, modelling `Vector3.Lerp(start, end, amount)`:
componentwise `start + (end - start) * amount`. -/
def lerp (a b : Vec3) (t : ℚ) : Vec3 :=
  ⟨a.x + (b.x - a.x) * t, a.y + (b.y - a.y) * t, a.z + (b.z - a.z) * t⟩

/-- The zero vector. -/
def zero : Vec3 := ⟨0, 0, 0⟩

end Vec3

/-- Exact rational test for `cos(u, v) > t` where `t > 0`: `u ⬝ v` must be
positive and its square must beat `t² · |u|² · |v|²`.  When either vector is
zero the dot product is 0, the test is `false`, matching the zero-cosine
convention (0 > t fails for t > 0). -/
def cosGtB (u v : Vec3) (t : ℚ) : Bool :=
  decide (0 < u.dot v) && decide (t ^ 2 * (u.normSq * v.normSq) < (u.dot v) ^ 2)

/-- Exact rational test for `cos(u, v) < t` where `t > 0`: either the dot
product is nonpositive (cosine ≤ 0 < t), or its square is beaten by
`t² · |u|² · |v|²`.  When either vector is zero the dot product is 0 ≤ 0, the
test is `true`, matching the zero-cosine convention (0 < t for t > 0). -/
def cosLtB (u v : Vec3) (t : ℚ) : Bool :=
  decide (u.dot v ≤ 0) || decide ((u.dot v) ^ 2 < t ^ 2 * (u.normSq * v.normSq))

/-! ## Data model -/

/-- The eight joint positions read from `pose.points` (each via its `metric`
3-vector) in `update` (`avatarrenderer.ts:115-122`). -/
structure Pose where
  hipL : Vec3
  hipR : Vec3
  shoulderL : Vec3
  shoulderR : Vec3
  elbowL : Vec3
  elbowR : Vec3
  wristL : Vec3
  wristR : Vec3
  deriving DecidableEq, Repr

/-- The per-frame pose result; `result.poses` is the (possibly empty) list of
detected poses, of which `update` uses only the first
(`avatarrenderer.ts:107-108`). -/
structure PoseResult where
  poses : List Pose
  deriving DecidableEq, Repr

/-- The text-marker mesh (`textModel`).  `update` writes only `position` (via
assignment) and `enabled` (via `setEnabled`); `scaling`, `rotation`,
`geometry` and `material` stand for the externally-owned mesh properties that
`update` never touches (`scaling`/`rotation` are set once during scene setup,
geometry and material come from the loaded asset and are opaque here). -/
structure Marker where
  position : Vec3
  enabled : Bool
  scaling : Vec3
  rotation : Vec3
  geometry : Nat
  material : Nat
  deriving DecidableEq, Repr

/-- The mutable renderer state that `update` reads and writes: the persistent
gesture flag `handsUp` (initialized `false`, `avatarrenderer.ts:25`) and the
optional text marker (`avatarrenderer.ts:26`). -/
structure RendererState where
  handsUp : Bool
  textModel : Option Marker
  deriving DecidableEq, Repr

/-! ## Classifier -/

/-- Torso direction vector of the left side before normalization:
`shoulderL.subtract(hipL)` (`avatarrenderer.ts:124`). -/
def torsoL (p : Pose) : Vec3 := p.shoulderL.sub p.hipL

/-- Torso direction vector of the right side: `shoulderR.subtract(hipR)`
(`avatarrenderer.ts:125`). -/
def torsoR (p : Pose) : Vec3 := p.shoulderR.sub p.hipR

/-- Upper-arm vector of the left side: `elbowL.subtract(shoulderL)`
(`avatarrenderer.ts:126`). -/
def armL (p : Pose) : Vec3 := p.elbowL.sub p.shoulderL

/-- Upper-arm vector of the right side: `elbowR.subtract(shoulderR)`
(`avatarrenderer.ts:127`). -/
def armR (p : Pose) : Vec3 := p.elbowR.sub p.shoulderR

/-- Forearm vector of the left side: `wristL.subtract(elbowL)`
(`avatarrenderer.ts:128`). -/
def foreArmL (p : Pose) : Vec3 := p.wristL.sub p.elbowL

/-- Forearm vector of the right side: `wristR.subtract(elbowR)`
(`avatarrenderer.ts:129`). -/
def foreArmR (p : Pose) : Vec3 := p.wristR.sub p.elbowR

/-- The source computes `cosMin = Math.min(armLCos, armRCos, foreArmLCos,
foreArmRCos)` of the four cosines (`avatarrenderer.ts:132-138`) and tests
`cosMin > t`; the minimum exceeds `t` exactly when every one of the four
cosines does, which is this conjunction of the four exact comparisons
(pairing the unnormalized vectors exactly as the source pairs the normalized
ones: torso·arm and forearm·arm on each side). -/
def cosMinGt (p : Pose) (t : ℚ) : Bool :=
  cosGtB (torsoL p) (armL p) t && cosGtB (torsoR p) (armR p) t &&
  cosGtB (foreArmL p) (armL p) t && cosGtB (foreArmR p) (armR p) t

/-- The test `cosMin < t` of the source: the minimum of the four cosines is
below `t` exactly when at least one of them is, which is this disjunction of
the four exact comparisons. -/
def cosMinLt (p : Pose) (t : ℚ) : Bool :=
  cosLtB (torsoL p) (armL p) t || cosLtB (torsoR p) (armR p) t ||
  cosLtB (foreArmL p) (armL p) t || cosLtB (foreArmR p) (armR p) t

/-- The two sequential if-statements of the source (`avatarrenderer.ts:139-142`):
`if (cosMin > 0.8) handsUp = true; if (cosMin < 0.7) handsUp = false;`
applied to the previous state, with `gt` and `lt` the outcomes of the two
threshold tests. -/
def classifySeq (gt lt prev : Bool) : Bool :=
  let s1 := if gt then true else prev
  if lt then false else s1

/-- The spec's hysteresis rule, written as the spec writes it (§4.1): an
if / else-if / else chain.  This definition follows the spec's words, to be
compared with `classifySeq`, which follows the source. -/
def classifyIfElse (gt lt prev : Bool) : Bool :=
  if gt then true else if lt then false else prev

/-- The `update` callback (`avatarrenderer.ts:105-151`) restricted to the
state it owns.  The first detected pose is taken if any
(`result.poses && result.poses.length > 0 ? result.poses[0] : undefined`);
with no pose, `handsUp` is cleared and the method returns early (delegating
to `super.update`), leaving the marker untouched.  With a pose, the two
hysteresis if-statements update `handsUp`, and then, if the text marker
exists, its position is set to `Vector3.Lerp(wristL, wristR, 0.5)` and its
enabled flag to the (new) `handsUp`.  Delegation to `super.update(result,
stream)` mutates none of this state and is not modelled; the function is
total, so no error is signalled on any input. -/
def update (st : RendererState) (result : PoseResult) : RendererState :=
  match result.poses.head? with
  | none => { st with handsUp := false }
  | some pose =>
      let newState := classifySeq (cosMinGt pose (4/5)) (cosMinLt pose (7/10)) st.handsUp
      let newMarker :=
        match st.textModel with
        | none => none
        | some m => some { m with
            position := Vec3.lerp pose.wristL pose.wristR (1/2),
            enabled := newState }
      { handsUp := newState, textModel := newMarker }

/-- Midpoint of two vectors, as the spec's words describe the marker position
("their midpoint").  This definition follows the spec, to be compared with
the `Vector3.Lerp(wristL, wristR, 0.5)` call of the source. -/
def wristMidpoint (a b : Vec3) : Vec3 :=
  ⟨(a.x + b.x) / 2, (a.y + b.y) / 2, (a.z + b.z) / 2⟩

/-! ## Load guard -/

/-- The loading-related state of the renderer: the base class `loaded` flag
and `scene` handle (modelled as a presence bit), together with effect
counters recording how often scene setup and the base loader ran.
The base class fields are external to the file under review; only their use
by the `load` guard (`avatarrenderer.ts:42`) matters here. -/
structure LoadState where
  loaded : Bool
  hasScene : Bool
  setupCount : Nat
  superLoadCount : Nat
  deriving DecidableEq, Repr

/-- Effect of `setupScene` on the modelled state: it performs scene setup
(counted) and touches neither `loaded` nor the scene's presence
(`avatarrenderer.ts:49-81`). -/
def setupScene (st : LoadState) : LoadState :=
  { st with setupCount := st.setupCount + 1 }

/-- The `load` method (`avatarrenderer.ts:41-46`): if already loaded or
there is no scene, return immediately with no state change; otherwise run
`setupScene` and then delegate to `super.load()`, whose effect on the state
is the external base class's and is passed in as `superLoad`. -/
def load (superLoad : LoadState → LoadState) (st : LoadState) : LoadState :=
  if st.loaded || !st.hasScene then st
  else superLoad (setupScene st)

/-! ## Basic vector lemmas -/

namespace Vec3

theorem normSq_nonneg (a : Vec3) : 0 ≤ a.normSq := by
  have hx := mul_self_nonneg a.x
  have hy := mul_self_nonneg a.y
  have hz := mul_self_nonneg a.z
  simp only [normSq, dot]
  linarith

theorem dot_comm (a b : Vec3) : a.dot b = b.dot a := by
  simp only [dot]; ring

theorem dot_zero_left (b : Vec3) : zero.dot b = 0 := by
  simp [zero, dot]

theorem dot_zero_right (a : Vec3) : a.dot zero = 0 := by
  simp [zero, dot]

theorem normSq_eq_zero_iff (a : Vec3) : a.normSq = 0 ↔ a = zero := by
  constructor
  · intro h
    have hx := mul_self_nonneg a.x
    have hy := mul_self_nonneg a.y
    have hz := mul_self_nonneg a.z
    simp only [normSq, dot] at h
    have hx0 : a.x * a.x = 0 := by linarith
    have hy0 : a.y * a.y = 0 := by linarith
    have hz0 : a.z * a.z = 0 := by linarith
    have : a.x = 0 := by
      rcases mul_eq_zero.mp hx0 with h1 | h1 <;> exact h1
    have : a.y = 0 := by
      rcases mul_eq_zero.mp hy0 with h1 | h1 <;> exact h1
    have : a.z = 0 := by
      rcases mul_eq_zero.mp hz0 with h1 | h1 <;> exact h1
    cases a
    simp_all [zero]
  · intro h; subst h; simp [zero, normSq, dot]

end Vec3

/-! ## Faithfulness of the squared cosine tests -/

/-- For nonzero vectors and a positive threshold, `cosGtB` decides the real
comparison `t < cos(u, v)` with `cos` the genuine real-valued cosine of the
angle between the vectors. -/
theorem cosGtB_iff_real (u v : Vec3) (t : ℚ) (ht : 0 < t)
    (hu : u.normSq ≠ 0) (hv : v.normSq ≠ 0) :
    cosGtB u v t = true ↔
      (t : ℝ) < (u.dot v : ℝ) /
        (Real.sqrt (u.normSq : ℝ) * Real.sqrt (v.normSq : ℝ)) := by
  have hu0 : (0 : ℝ) < (u.normSq : ℝ) := by
    have := u.normSq_nonneg
    have : (0 : ℚ) < u.normSq := lt_of_le_of_ne this (Ne.symm hu)
    exact_mod_cast this
  have hv0 : (0 : ℝ) < (v.normSq : ℝ) := by
    have := v.normSq_nonneg
    have : (0 : ℚ) < v.normSq := lt_of_le_of_ne this (Ne.symm hv)
    exact_mod_cast this
  have hsu : (0 : ℝ) < Real.sqrt (u.normSq : ℝ) := Real.sqrt_pos.mpr hu0
  have hsv : (0 : ℝ) < Real.sqrt (v.normSq : ℝ) := Real.sqrt_pos.mpr hv0
  have hN : (0 : ℝ) < Real.sqrt (u.normSq : ℝ) * Real.sqrt (v.normSq : ℝ) :=
    mul_pos hsu hsv
  have hNsq : (Real.sqrt (u.normSq : ℝ) * Real.sqrt (v.normSq : ℝ)) ^ 2 =
      (u.normSq : ℝ) * (v.normSq : ℝ) := by
    rw [mul_pow, Real.sq_sqrt hu0.le, Real.sq_sqrt hv0.le]
  rw [lt_div_iff₀ hN]
  simp only [cosGtB, Bool.and_eq_true, decide_eq_true_eq]
  have ht' : (0 : ℝ) < (t : ℝ) := by exact_mod_cast ht
  constructor
  · rintro ⟨hd, hsq⟩
    have hd' : (0 : ℝ) < (u.dot v : ℝ) := by exact_mod_cast hd
    have hsq' : (t : ℝ) ^ 2 * ((u.normSq : ℝ) * (v.normSq : ℝ)) <
        (u.dot v : ℝ) ^ 2 := by exact_mod_cast hsq
    rw [← hNsq] at hsq'
    by_contra hcon
    push_neg at hcon
    have key := mul_self_le_mul_self hd'.le hcon
    nlinarith [key, hsq']
  · intro h
    have hd' : (0 : ℝ) < (u.dot v : ℝ) := lt_trans (mul_pos ht' hN) h
    constructor
    · exact_mod_cast hd'
    · have key := mul_self_lt_mul_self (mul_pos ht' hN).le h
      have : (t : ℝ) ^ 2 * ((u.normSq : ℝ) * (v.normSq : ℝ)) <
          (u.dot v : ℝ) ^ 2 := by rw [← hNsq]; nlinarith [key]
      exact_mod_cast this

/-- For nonzero vectors and a positive threshold, `cosLtB` decides the real
comparison `cos(u, v) < t`. -/
theorem cosLtB_iff_real (u v : Vec3) (t : ℚ) (ht : 0 < t)
    (hu : u.normSq ≠ 0) (hv : v.normSq ≠ 0) :
    cosLtB u v t = true ↔
      (u.dot v : ℝ) /
        (Real.sqrt (u.normSq : ℝ) * Real.sqrt (v.normSq : ℝ)) < (t : ℝ) := by
  have hu0 : (0 : ℝ) < (u.normSq : ℝ) := by
    have := u.normSq_nonneg
    have : (0 : ℚ) < u.normSq := lt_of_le_of_ne this (Ne.symm hu)
    exact_mod_cast this
  have hv0 : (0 : ℝ) < (v.normSq : ℝ) := by
    have := v.normSq_nonneg
    have : (0 : ℚ) < v.normSq := lt_of_le_of_ne this (Ne.symm hv)
    exact_mod_cast this
  have hsu : (0 : ℝ) < Real.sqrt (u.normSq : ℝ) := Real.sqrt_pos.mpr hu0
  have hsv : (0 : ℝ) < Real.sqrt (v.normSq : ℝ) := Real.sqrt_pos.mpr hv0
  have hN : (0 : ℝ) < Real.sqrt (u.normSq : ℝ) * Real.sqrt (v.normSq : ℝ) :=
    mul_pos hsu hsv
  have hNsq : (Real.sqrt (u.normSq : ℝ) * Real.sqrt (v.normSq : ℝ)) ^ 2 =
      (u.normSq : ℝ) * (v.normSq : ℝ) := by
    rw [mul_pow, Real.sq_sqrt hu0.le, Real.sq_sqrt hv0.le]
  rw [div_lt_iff₀ hN]
  simp only [cosLtB, Bool.or_eq_true, decide_eq_true_eq]
  have ht' : (0 : ℝ) < (t : ℝ) := by exact_mod_cast ht
  constructor
  · rintro (hd | hsq)
    · have hd' : (u.dot v : ℝ) ≤ 0 := by exact_mod_cast hd
      exact lt_of_le_of_lt hd' (mul_pos ht' hN)
    · have hsq' : (u.dot v : ℝ) ^ 2 <
          (t : ℝ) ^ 2 * ((u.normSq : ℝ) * (v.normSq : ℝ)) := by exact_mod_cast hsq
      rw [← hNsq] at hsq'
      by_contra hcon
      push_neg at hcon
      have key := mul_self_le_mul_self (mul_pos ht' hN).le hcon
      nlinarith [key, hsq']
  · intro h
    by_cases hd : u.dot v ≤ 0
    · exact Or.inl hd
    · right
      push_neg at hd
      have hd' : (0 : ℝ) < (u.dot v : ℝ) := by exact_mod_cast hd
      have key := mul_self_lt_mul_self hd'.le h
      have : (u.dot v : ℝ) ^ 2 <
          (t : ℝ) ^ 2 * ((u.normSq : ℝ) * (v.normSq : ℝ)) := by
        rw [← hNsq]; nlinarith [key]
      exact_mod_cast this

/-! ## Helper lemmas -/

/-- The two threshold tests of the source are mutually exclusive on each
cosine: a cosine strictly above 0.8 is not strictly below 0.7. -/
theorem cosGtB_not_cosLtB (u v : Vec3) :
    cosGtB u v (4/5) = true → cosLtB u v (7/10) = false := by
  simp only [cosGtB, cosLtB, Bool.and_eq_true, Bool.or_eq_false_iff,
    decide_eq_true_eq, decide_eq_false_iff_not, not_le, not_lt]
  rintro ⟨hd, hsq⟩
  have hP : 0 ≤ u.normSq * v.normSq :=
    mul_nonneg u.normSq_nonneg v.normSq_nonneg
  constructor
  · exact hd
  · nlinarith [hsq, hP]

/-- If all four cosines exceed 0.8 then none is below 0.7: the source's two
sequential if-statements can never both fire on one frame. -/
theorem cosMinGt_not_cosMinLt (p : Pose) :
    cosMinGt p (4/5) = true → cosMinLt p (7/10) = false := by
  simp only [cosMinGt, cosMinLt, Bool.and_eq_true, Bool.or_eq_false_iff]
  rintro ⟨⟨⟨h1, h2⟩, h3⟩, h4⟩
  exact ⟨⟨⟨cosGtB_not_cosLtB _ _ h1, cosGtB_not_cosLtB _ _ h2⟩,
    cosGtB_not_cosLtB _ _ h3⟩, cosGtB_not_cosLtB _ _ h4⟩

/-- A zero first vector makes the `cos < t` test succeed (its cosine is 0 by
the normalize-of-zero convention, and the dot product with it is 0). -/
theorem cosLtB_left_zero (v : Vec3) (t : ℚ) : cosLtB Vec3.zero v t = true := by
  simp [cosLtB, Vec3.dot_zero_left]

/-- A zero second vector makes the `cos < t` test succeed. -/
theorem cosLtB_right_zero (u : Vec3) (t : ℚ) : cosLtB u Vec3.zero t = true := by
  simp [cosLtB, Vec3.dot_zero_right]

/-- Lerp at one half is the midpoint: the source's
`Vector3.Lerp(wristL, wristR, 0.5)` computes the spec's "midpoint of the two
wrists". -/
theorem lerp_half_eq_wristMidpoint (a b : Vec3) :
    Vec3.lerp a b (1/2) = wristMidpoint a b := by
  simp only [Vec3.lerp, wristMidpoint, Vec3.mk.injEq]
  refine ⟨by ring, by ring, by ring⟩

example : cosMinGt ⟨⟨0,0,0⟩, ⟨1,0,0⟩, ⟨0,1,0⟩, ⟨1,1,0⟩, ⟨0,2,0⟩, ⟨1,2,0⟩,
    ⟨0,3,0⟩, ⟨1,3,0⟩⟩ (4/5) = true := by
  norm_num [cosMinGt, cosGtB, torsoL, torsoR, armL, armR, foreArmL, foreArmR,
    Vec3.sub, Vec3.dot, Vec3.normSq]

example : cosMinLt ⟨⟨0,0,0⟩, ⟨1,0,0⟩, ⟨0,1,0⟩, ⟨1,1,0⟩, ⟨0,0,0⟩, ⟨1,0,0⟩,
    ⟨0,-1,0⟩, ⟨1,-1,0⟩⟩ (7/10) = true := by
  norm_num [cosMinLt, cosLtB, torsoL, torsoR, armL, armR, foreArmL, foreArmR,
    Vec3.sub, Vec3.dot, Vec3.normSq]

example : cosMinGt ⟨⟨0,0,0⟩, ⟨0,0,1⟩, ⟨1,0,0⟩, ⟨1,0,1⟩, ⟨5,3,0⟩, ⟨5,3,1⟩,
    ⟨6,3,0⟩, ⟨6,3,1⟩⟩ (4/5) = false := by
  norm_num [cosMinGt, cosGtB, torsoL, torsoR, armL, armR, foreArmL, foreArmR,
    Vec3.sub, Vec3.dot, Vec3.normSq]

example : cosMinLt ⟨⟨0,0,0⟩, ⟨0,0,1⟩, ⟨1,0,0⟩, ⟨1,0,1⟩, ⟨5,3,0⟩, ⟨5,3,1⟩,
    ⟨6,3,0⟩, ⟨6,3,1⟩⟩ (7/10) = false := by
  norm_num [cosMinLt, cosLtB, torsoL, torsoR, armL, armR, foreArmL, foreArmR,
    Vec3.sub, Vec3.dot, Vec3.normSq]

/-! ## Claims -/

/-- C1: for every frame whose pose is present and whose computed minimum
cosine `cosMin = min(armLCos, armRCos, foreArmLCos, foreArmRCos)` is strictly
greater than 0.8, `update` sets `handsUp` to `true`, regardless of the
previous value of `handsUp`. -/
theorem update_handsUp_true_of_cosMin_gt (st : RendererState)
    (result : PoseResult) (pose : Pose)
    (hp : result.poses.head? = some pose)
    (hgt : cosMinGt pose (4/5) = true) :
    (update st result).handsUp = true := by
  have hlt : cosMinLt pose (7/10) = false := cosMinGt_not_cosMinLt pose hgt
  simp [update, hp, classifySeq, hgt, hlt]

/-- Witness for C1: a pose with torso, upper arms and forearms all pointing
straight up on both sides (all four cosines are 1 > 0.8), previous state
`false`. -/
theorem update_handsUp_true_of_cosMin_gt_witness :
    (update ⟨false, none⟩
      ⟨[⟨⟨0,0,0⟩, ⟨1,0,0⟩, ⟨0,1,0⟩, ⟨1,1,0⟩, ⟨0,2,0⟩, ⟨1,2,0⟩,
        ⟨0,3,0⟩, ⟨1,3,0⟩⟩]⟩).handsUp = true :=
  update_handsUp_true_of_cosMin_gt _ _ _ rfl (by
    norm_num [cosMinGt, cosGtB, torsoL, torsoR, armL, armR, foreArmL, foreArmR,
      Vec3.sub, Vec3.dot, Vec3.normSq])

/-- C2: for every frame whose pose is present and where some computed cosine
is strictly below 0.7 (`cosMin < 0.7`), `update` sets `handsUp` to `false`
regardless of the previous value; and the source's two sequential
if-statements realize the spec's if / else-if rule, the two conditions being
mutually exclusive. -/
theorem update_handsUp_false_of_cosMin_lt :
    (∀ (st : RendererState) (result : PoseResult) (pose : Pose),
        result.poses.head? = some pose → cosMinLt pose (7/10) = true →
        (update st result).handsUp = false) ∧
    (∀ (p : Pose) (prev : Bool),
        classifySeq (cosMinGt p (4/5)) (cosMinLt p (7/10)) prev =
          classifyIfElse (cosMinGt p (4/5)) (cosMinLt p (7/10)) prev) := by
  constructor
  · intro st result pose hp hlt
    simp [update, hp, classifySeq, hlt]
  · intro p prev
    cases hgt : cosMinGt p (4/5) with
    | false => simp [classifySeq, classifyIfElse]
    | true =>
        have hlt := cosMinGt_not_cosMinLt p hgt
        simp [classifySeq, classifyIfElse, hlt]

/-- Witness for C2: a pose with both arms hanging straight down (the
torso·arm cosines are -1 < 0.7), previous state `true` flips to `false`; and
the sequential/else-if agreement evaluated on that same pose. -/
theorem update_handsUp_false_of_cosMin_lt_witness :
    (update ⟨true, none⟩
      ⟨[⟨⟨0,0,0⟩, ⟨1,0,0⟩, ⟨0,1,0⟩, ⟨1,1,0⟩, ⟨0,0,0⟩, ⟨1,0,0⟩,
        ⟨0,-1,0⟩, ⟨1,-1,0⟩⟩]⟩).handsUp = false ∧
    classifySeq
        (cosMinGt ⟨⟨0,0,0⟩, ⟨1,0,0⟩, ⟨0,1,0⟩, ⟨1,1,0⟩, ⟨0,0,0⟩, ⟨1,0,0⟩,
          ⟨0,-1,0⟩, ⟨1,-1,0⟩⟩ (4/5))
        (cosMinLt ⟨⟨0,0,0⟩, ⟨1,0,0⟩, ⟨0,1,0⟩, ⟨1,1,0⟩, ⟨0,0,0⟩, ⟨1,0,0⟩,
          ⟨0,-1,0⟩, ⟨1,-1,0⟩⟩ (7/10)) true =
      classifyIfElse
        (cosMinGt ⟨⟨0,0,0⟩, ⟨1,0,0⟩, ⟨0,1,0⟩, ⟨1,1,0⟩, ⟨0,0,0⟩, ⟨1,0,0⟩,
          ⟨0,-1,0⟩, ⟨1,-1,0⟩⟩ (4/5))
        (cosMinLt ⟨⟨0,0,0⟩, ⟨1,0,0⟩, ⟨0,1,0⟩, ⟨1,1,0⟩, ⟨0,0,0⟩, ⟨1,0,0⟩,
          ⟨0,-1,0⟩, ⟨1,-1,0⟩⟩ (7/10)) true :=
  ⟨update_handsUp_false_of_cosMin_lt.1 _ _ _ rfl (by
      norm_num [cosMinLt, cosLtB, torsoL, torsoR, armL, armR, foreArmL,
        foreArmR, Vec3.sub, Vec3.dot, Vec3.normSq]),
    update_handsUp_false_of_cosMin_lt.2 _ true⟩

/-- C3: for every frame whose pose is present and whose `cosMin` lies in the
closed dead band `[0.7, 0.8]` — neither strict threshold comparison fires,
which covers `cosMin` exactly 0.7 and exactly 0.8 — `update` leaves `handsUp`
equal to its previous value. -/
theorem update_handsUp_stable_in_deadband (st : RendererState)
    (result : PoseResult) (pose : Pose)
    (hp : result.poses.head? = some pose)
    (hgt : cosMinGt pose (4/5) = false)
    (hlt : cosMinLt pose (7/10) = false) :
    (update st result).handsUp = st.handsUp := by
  simp [update, hp, classifySeq, hgt, hlt]

/-- Witness for C3: a boundary pose whose four cosines are all exactly 0.8
(torso (1,0,0), upper arm (4,3,0), forearm (1,0,0) on both sides); the strict
comparisons fire on neither side of the band and the previous state `true`
is kept. -/
theorem update_handsUp_stable_in_deadband_witness :
    (update ⟨true, none⟩
      ⟨[⟨⟨0,0,0⟩, ⟨0,0,1⟩, ⟨1,0,0⟩, ⟨1,0,1⟩, ⟨5,3,0⟩, ⟨5,3,1⟩,
        ⟨6,3,0⟩, ⟨6,3,1⟩⟩]⟩).handsUp = true :=
  update_handsUp_stable_in_deadband _ _ _ rfl
    (by norm_num [cosMinGt, cosGtB, torsoL, torsoR, armL, armR, foreArmL,
      foreArmR, Vec3.sub, Vec3.dot, Vec3.normSq])
    (by norm_num [cosMinLt, cosLtB, torsoL, torsoR, armL, armR, foreArmL,
      foreArmR, Vec3.sub, Vec3.dot, Vec3.normSq])

/-- C4: for every frame whose pose result contains no pose, `update` sets
`handsUp` to `false` and keeps the marker — in particular its position —
exactly as it was; no error is signalled (`update` is a total function). -/
theorem update_noPose_clears_handsUp_keeps_marker (st : RendererState)
    (result : PoseResult) (h : result.poses = []) :
    (update st result).handsUp = false ∧
    (update st result).textModel = st.textModel := by
  simp [update, h]

/-- Witness for C4: a pose-less frame with a marker previously placed at
(5, 6, 7): the state flips to `false` and the marker is untouched. -/
theorem update_noPose_clears_handsUp_keeps_marker_witness :
    (update ⟨true, some ⟨⟨5,6,7⟩, true, ⟨1,1,1⟩, ⟨0,0,0⟩, 0, 0⟩⟩
      ⟨[]⟩).handsUp = false ∧
    (update ⟨true, some ⟨⟨5,6,7⟩, true, ⟨1,1,1⟩, ⟨0,0,0⟩, 0, 0⟩⟩
      ⟨[]⟩).textModel = some ⟨⟨5,6,7⟩, true, ⟨1,1,1⟩, ⟨0,0,0⟩, 0, 0⟩ :=
  update_noPose_clears_handsUp_keeps_marker _ _ rfl

/-- Counterexample to C5 as stated ("`marker.enabled = newState` each
frame"): on a frame with no pose, `update` never reaches the marker block,
so here the new state is `false` while the marker stays enabled (`true`). -/
theorem update_enabled_unset_on_poseless_frame :
    (update ⟨true, some ⟨⟨0,0,0⟩, true, ⟨1,1,1⟩, ⟨0,0,0⟩, 0, 0⟩⟩
      ⟨[]⟩).handsUp = false ∧
    ((update ⟨true, some ⟨⟨0,0,0⟩, true, ⟨1,1,1⟩, ⟨0,0,0⟩, 0, 0⟩⟩
      ⟨[]⟩).textModel.map Marker.enabled) = some true :=
  ⟨rfl, rfl⟩

/-- C5 (amended): on every frame whose pose is present and whose text marker
exists, `update` sets the marker's enabled flag equal to the new `handsUp`
state; on pose-less frames the flag is not written. -/
theorem update_marker_enabled_eq_new_state (st : RendererState)
    (result : PoseResult) (pose : Pose) (m : Marker)
    (hp : result.poses.head? = some pose) (hm : st.textModel = some m) :
    ((update st result).textModel.map Marker.enabled) =
      some ((update st result).handsUp) := by
  simp [update, hp, hm]

/-- Witness for amended C5: a hands-up pose with a marker present. -/
theorem update_marker_enabled_eq_new_state_witness :
    ((update ⟨false, some ⟨⟨0,0,0⟩, false, ⟨1,1,1⟩, ⟨0,0,0⟩, 0, 0⟩⟩
      ⟨[⟨⟨0,0,0⟩, ⟨1,0,0⟩, ⟨0,1,0⟩, ⟨1,1,0⟩, ⟨0,2,0⟩, ⟨1,2,0⟩,
        ⟨0,3,0⟩, ⟨1,3,0⟩⟩]⟩).textModel.map Marker.enabled) =
      some ((update ⟨false, some ⟨⟨0,0,0⟩, false, ⟨1,1,1⟩, ⟨0,0,0⟩, 0, 0⟩⟩
      ⟨[⟨⟨0,0,0⟩, ⟨1,0,0⟩, ⟨0,1,0⟩, ⟨1,1,0⟩, ⟨0,2,0⟩, ⟨1,2,0⟩,
        ⟨0,3,0⟩, ⟨1,3,0⟩⟩]⟩).handsUp) :=
  update_marker_enabled_eq_new_state _ _ _ _ rfl rfl

/-- C6: for every frame whose pose is present and whose text marker exists,
the marker position written by `update` — `Vector3.Lerp(wristL, wristR, 0.5)`
— is the exact midpoint of the left-wrist and right-wrist positions. -/
theorem update_marker_position_is_wrist_midpoint (st : RendererState)
    (result : PoseResult) (pose : Pose) (m : Marker)
    (hp : result.poses.head? = some pose) (hm : st.textModel = some m) :
    ((update st result).textModel.map Marker.position) =
      some (wristMidpoint pose.wristL pose.wristR) := by
  have hset : (update st result).textModel =
      some { m with
        position := Vec3.lerp pose.wristL pose.wristR (1/2),
        enabled := classifySeq (cosMinGt pose (4/5))
          (cosMinLt pose (7/10)) st.handsUp } := by
    simp [update, hp, hm]
  rw [hset]
  show some (Vec3.lerp pose.wristL pose.wristR (1/2)) = _
  rw [lerp_half_eq_wristMidpoint]

/-- Witness for C6, on the spec's own example: wrists at (0,0,0) and
(2,0,0) put the marker at (1,0,0). -/
theorem update_marker_position_is_wrist_midpoint_witness :
    ((update ⟨false, some ⟨⟨9,9,9⟩, false, ⟨1,1,1⟩, ⟨0,0,0⟩, 0, 0⟩⟩
      ⟨[⟨⟨0,0,0⟩, ⟨0,0,0⟩, ⟨0,0,0⟩, ⟨0,0,0⟩, ⟨0,0,0⟩, ⟨0,0,0⟩,
        ⟨0,0,0⟩, ⟨2,0,0⟩⟩]⟩).textModel.map Marker.position) =
      some ⟨1, 0, 0⟩ :=
  (update_marker_position_is_wrist_midpoint
    ⟨false, some ⟨⟨9,9,9⟩, false, ⟨1,1,1⟩, ⟨0,0,0⟩, 0, 0⟩⟩
    ⟨[⟨⟨0,0,0⟩, ⟨0,0,0⟩, ⟨0,0,0⟩, ⟨0,0,0⟩, ⟨0,0,0⟩, ⟨0,0,0⟩,
      ⟨0,0,0⟩, ⟨2,0,0⟩⟩]⟩
    ⟨⟨0,0,0⟩, ⟨0,0,0⟩, ⟨0,0,0⟩, ⟨0,0,0⟩, ⟨0,0,0⟩, ⟨0,0,0⟩,
      ⟨0,0,0⟩, ⟨2,0,0⟩⟩
    ⟨⟨9,9,9⟩, false, ⟨1,1,1⟩, ⟨0,0,0⟩, 0, 0⟩ rfl rfl).trans
    (by norm_num [wristMidpoint])

/-- C7: `update` is total on well-formed (possibly absent) input, and when a
limb difference vector has zero length (coincident joints) the zero-cosine
convention for a normalized zero vector makes the corresponding cosine 0,
hence `cosMin ≤ 0 < 0.7` and `handsUp` becomes `false`. -/
theorem update_handsUp_false_of_degenerate_limb (st : RendererState)
    (result : PoseResult) (pose : Pose)
    (hp : result.poses.head? = some pose)
    (hz : torsoL pose = Vec3.zero ∨ torsoR pose = Vec3.zero ∨
      armL pose = Vec3.zero ∨ armR pose = Vec3.zero ∨
      foreArmL pose = Vec3.zero ∨ foreArmR pose = Vec3.zero) :
    (update st result).handsUp = false := by
  have hlt : cosMinLt pose (7/10) = true := by
    rcases hz with h | h | h | h | h | h <;>
      simp [cosMinLt, h, cosLtB_left_zero, cosLtB_right_zero]
  simp [update, hp, classifySeq, hlt]

/-- Witness for C7: a pose whose left elbow coincides with the left shoulder
(zero upper-arm vector) while the right arm is straight up; previous state
`true` flips to `false`, with no runtime failure. -/
theorem update_handsUp_false_of_degenerate_limb_witness :
    (update ⟨true, none⟩
      ⟨[⟨⟨0,0,0⟩, ⟨1,0,0⟩, ⟨0,1,0⟩, ⟨1,1,0⟩, ⟨0,1,0⟩, ⟨1,2,0⟩,
        ⟨0,2,0⟩, ⟨1,3,0⟩⟩]⟩).handsUp = false :=
  update_handsUp_false_of_degenerate_limb _ _ _ rfl
    (Or.inr (Or.inr (Or.inl (by
      norm_num [armL, Vec3.sub, Vec3.zero]))))

/-- C8: on every frame, `update` writes only the marker's position and
enabled fields: whatever marker comes out of a frame, its scaling, rotation,
geometry and material are those of the marker that went in. -/
theorem update_preserves_other_marker_fields (st : RendererState)
    (result : PoseResult) (m m' : Marker)
    (hm : st.textModel = some m)
    (hm' : (update st result).textModel = some m') :
    m'.scaling = m.scaling ∧ m'.rotation = m.rotation ∧
    m'.geometry = m.geometry ∧ m'.material = m.material := by
  cases hhead : result.poses.head? with
  | none =>
      have hkeep : (update st result).textModel = st.textModel := by
        simp [update, hhead]
      rw [hkeep, hm] at hm'
      injection hm' with h
      subst h
      exact ⟨rfl, rfl, rfl, rfl⟩
  | some pose =>
      have hset : (update st result).textModel =
          some { m with
            position := Vec3.lerp pose.wristL pose.wristR (1/2),
            enabled := classifySeq (cosMinGt pose (4/5))
              (cosMinLt pose (7/10)) st.handsUp } := by
        simp [update, hhead, hm]
      rw [hset] at hm'
      injection hm' with h
      subst h
      exact ⟨rfl, rfl, rfl, rfl⟩

/-- Witness for C8 at a pose-less frame: the marker's scaling (2,2,2),
rotation (3,3,3), geometry 5 and material 7 all survive the frame. -/
theorem update_preserves_other_marker_fields_witness :
    (⟨⟨0,0,0⟩, true, ⟨2,2,2⟩, ⟨3,3,3⟩, 5, 7⟩ : Marker).scaling = ⟨2,2,2⟩ ∧
    (⟨⟨0,0,0⟩, true, ⟨2,2,2⟩, ⟨3,3,3⟩, 5, 7⟩ : Marker).rotation = ⟨3,3,3⟩ ∧
    (⟨⟨0,0,0⟩, true, ⟨2,2,2⟩, ⟨3,3,3⟩, 5, 7⟩ : Marker).geometry = 5 ∧
    (⟨⟨0,0,0⟩, true, ⟨2,2,2⟩, ⟨3,3,3⟩, 5, 7⟩ : Marker).material = 7 :=
  update_preserves_other_marker_fields
    ⟨true, some ⟨⟨0,0,0⟩, true, ⟨2,2,2⟩, ⟨3,3,3⟩, 5, 7⟩⟩ ⟨[]⟩
    ⟨⟨0,0,0⟩, true, ⟨2,2,2⟩, ⟨3,3,3⟩, 5, 7⟩
    ⟨⟨0,0,0⟩, true, ⟨2,2,2⟩, ⟨3,3,3⟩, 5, 7⟩ rfl rfl

/-- C9: on every frame whose pose result contains no pose, `update` returns
before the marker-update block, so a marker enabled on a previous frame
remains enabled (visible) even though `handsUp` is set to `false`. -/
theorem update_noPose_marker_stays_enabled (st : RendererState)
    (result : PoseResult) (m : Marker)
    (h : result.poses = []) (hm : st.textModel = some m)
    (he : m.enabled = true) :
    ((update st result).textModel.map Marker.enabled) = some true ∧
    (update st result).handsUp = false := by
  simp [update, h, hm, he]

/-- Witness for C9: a pose-less frame after a frame that enabled the
marker. -/
theorem update_noPose_marker_stays_enabled_witness :
    ((update ⟨true, some ⟨⟨1,2,3⟩, true, ⟨1,1,1⟩, ⟨0,0,0⟩, 0, 0⟩⟩
      ⟨[]⟩).textModel.map Marker.enabled) = some true ∧
    (update ⟨true, some ⟨⟨1,2,3⟩, true, ⟨1,1,1⟩, ⟨0,0,0⟩, 0, 0⟩⟩
      ⟨[]⟩).handsUp = false :=
  update_noPose_marker_stays_enabled _ _ _ rfl rfl rfl

/-- C10: `load` called when the renderer is already loaded, or when it has
no scene, returns with no state change (no scene setup, no base-class load);
and provided the base class's `super.load()` marks the renderer loaded,
`load` is idempotent: a second call after a successful first one is a
no-op. -/
theorem load_guard_and_idempotent (superLoad : LoadState → LoadState)
    (st : LoadState) :
    (st.loaded = true ∨ st.hasScene = false → load superLoad st = st) ∧
    ((∀ s, (superLoad s).loaded = true) →
      load superLoad (load superLoad st) = load superLoad st) := by
  constructor
  · intro h
    rcases h with h | h <;> simp [load, h]
  · intro hsuper
    cases hl : st.loaded with
    | true => simp [load, hl]
    | false =>
        cases hs : st.hasScene with
        | false => simp [load, hl, hs]
        | true => simp [load, hl, hs, hsuper]

/-- Witness for C10: with a base loader that marks the state loaded (and
counts its invocations), a second `load` after a successful first one
changes nothing; and a `load` on an already-loaded state is the
identity. -/
theorem load_guard_and_idempotent_witness :
    load (fun s => { s with loaded := true, superLoadCount := s.superLoadCount + 1 })
      (load (fun s => { s with loaded := true, superLoadCount := s.superLoadCount + 1 })
        ⟨false, true, 0, 0⟩) =
      load (fun s => { s with loaded := true, superLoadCount := s.superLoadCount + 1 })
        ⟨false, true, 0, 0⟩ ∧
    load (fun s => { s with loaded := true, superLoadCount := s.superLoadCount + 1 })
      ⟨true, true, 3, 1⟩ =
      ⟨true, true, 3, 1⟩ :=
  ⟨(load_guard_and_idempotent _ _).2 (fun _ => rfl),
    (load_guard_and_idempotent _ _).1 (Or.inl rfl)⟩
